import Mathlib

/-!
Verification of the unified search and federated-object resolution engine
(`Search::perform` in `server/src/api/site.rs`).

The dispatcher itself is translated directly from the source.  Its external
collaborators — the remote resolver `search_by_apub_id`, the credential lookup
`get_user_from_jwt_opt`, and the four query builders' terminal `list()` calls —
live in crates outside the excerpt; they are modelled as components of an
explicit environment `Env`, and the builder configuration state is modelled
from the spec's QuerySpec description.  `perform` additionally records an
event trace so that "X happened before Y" and "builder Z was never invoked"
become provable statements.
-/

namespace LemmySearch

/-- Errors are surfaced as plain messages in this model. -/
abbrev LemmyError := String

/-- Modelled from the spec: SortOrder, the closed enumeration of sort keys
(the `SortType` enum lives in the `lemmy_db` crate, not in the excerpt). -/
inductive SortType
  | Active
  | Hot
  | New
  | TopDay
  | TopWeek
  | TopMonth
  | TopYear
  | TopAll
deriving DecidableEq, Repr

/-- Modelled from the spec: parsing a sort string fails on any string that is
not a variant name (the `FromStr` derive lives in `lemmy_db`, not in the
excerpt); malformed values produce an error, with no fallback. -/
def SortType.from_str (s : String) : Except LemmyError SortType :=
  if s = "Active" then .ok .Active
  else if s = "Hot" then .ok .Hot
  else if s = "New" then .ok .New
  else if s = "TopDay" then .ok .TopDay
  else if s = "TopWeek" then .ok .TopWeek
  else if s = "TopMonth" then .ok .TopMonth
  else if s = "TopYear" then .ok .TopYear
  else if s = "TopAll" then .ok .TopAll
  else .error "invalid sort type"

/-- Modelled from the spec: SearchType, the closed enumeration
{Posts, Comments, Communities, Users, Url, All} (the enum lives in
`lemmy_db`, not in the excerpt). -/
inductive SearchType
  | All
  | Comments
  | Posts
  | Communities
  | Users
  | Url
deriving DecidableEq, Repr

/-- Modelled from the spec: parsing a search-type string fails on any string
that is not a variant name (the `FromStr` derive lives in `lemmy_db`, not in
the excerpt). -/
def SearchType.from_str (s : String) : Except LemmyError SearchType :=
  if s = "All" then .ok .All
  else if s = "Comments" then .ok .Comments
  else if s = "Posts" then .ok .Posts
  else if s = "Communities" then .ok .Communities
  else if s = "Users" then .ok .Users
  else if s = "Url" then .ok .Url
  else .error "invalid search type"

/-- Modelled from the spec: an entity view returned by the post builder; its
internal fields are irrelevant to the dispatcher, so it is an opaque id. -/
structure PostView where
  id : Int
deriving DecidableEq, Repr

/-- Modelled from the spec: an entity view returned by the comment builder. -/
structure CommentView where
  id : Int
deriving DecidableEq, Repr

/-- Modelled from the spec: an entity view returned by the community builder. -/
structure CommunityView where
  id : Int
deriving DecidableEq, Repr

/-- Modelled from the spec: an entity view returned by the user builder. -/
structure UserView where
  id : Int
deriving DecidableEq, Repr

/-- The search request, translated from `struct Search` in `site.rs`. -/
structure Search where
  q : String
  type_ : String
  community_id : Option Int
  sort : String
  page : Option Int
  limit : Option Int
  auth : Option String
deriving DecidableEq, Repr

/-- The response envelope, translated from `struct SearchResponse` in
`site.rs`: four buckets, all structurally present. -/
structure SearchResponse where
  type_ : String
  comments : List CommentView
  posts : List PostView
  communities : List CommunityView
  users : List UserView
deriving DecidableEq, Repr

/-- Modelled from the spec: the post QueryBuilder's accumulated QuerySpec
(the builder lives in `lemmy_db::post_view`, not in the excerpt): sort,
NSFW flag, community scope, free-text term, URL term, viewer id, page,
limit. -/
structure PostQueryBuilder where
  sort_ : SortType
  show_nsfw_ : Bool
  community_id_ : Option Int
  search_term_ : Option String
  url_search_ : Option String
  my_user_id_ : Option Int
  page_ : Option Int
  limit_ : Option Int
deriving DecidableEq, Repr

/-- Modelled from the spec: builder defaults — no filters set, NSFW hidden
unless explicitly enabled, builder-internal default sort. -/
def PostQueryBuilder.create : PostQueryBuilder :=
  { sort_ := .Hot, show_nsfw_ := false, community_id_ := none,
    search_term_ := none, url_search_ := none, my_user_id_ := none,
    page_ := none, limit_ := none }

def PostQueryBuilder.sort (b : PostQueryBuilder) (s : SortType) : PostQueryBuilder :=
  { b with sort_ := s }

def PostQueryBuilder.show_nsfw (b : PostQueryBuilder) (v : Bool) : PostQueryBuilder :=
  { b with show_nsfw_ := v }

def PostQueryBuilder.for_community_id (b : PostQueryBuilder) (c : Option Int) : PostQueryBuilder :=
  { b with community_id_ := c }

def PostQueryBuilder.search_term (b : PostQueryBuilder) (q : String) : PostQueryBuilder :=
  { b with search_term_ := some q }

def PostQueryBuilder.url_search (b : PostQueryBuilder) (q : String) : PostQueryBuilder :=
  { b with url_search_ := some q }

def PostQueryBuilder.my_user_id (b : PostQueryBuilder) (u : Option Int) : PostQueryBuilder :=
  { b with my_user_id_ := u }

def PostQueryBuilder.page (b : PostQueryBuilder) (p : Option Int) : PostQueryBuilder :=
  { b with page_ := p }

def PostQueryBuilder.limit (b : PostQueryBuilder) (l : Option Int) : PostQueryBuilder :=
  { b with limit_ := l }

/-- Modelled from the spec: the comment QueryBuilder's accumulated QuerySpec
(the builder lives in `lemmy_db::comment_view`, not in the excerpt). -/
structure CommentQueryBuilder where
  sort_ : SortType
  show_nsfw_ : Bool
  community_id_ : Option Int
  search_term_ : Option String
  my_user_id_ : Option Int
  page_ : Option Int
  limit_ : Option Int
deriving DecidableEq, Repr

/-- Modelled from the spec: builder defaults, as for posts. -/
def CommentQueryBuilder.create : CommentQueryBuilder :=
  { sort_ := .Hot, show_nsfw_ := false, community_id_ := none,
    search_term_ := none, my_user_id_ := none, page_ := none, limit_ := none }

def CommentQueryBuilder.sort (b : CommentQueryBuilder) (s : SortType) : CommentQueryBuilder :=
  { b with sort_ := s }

def CommentQueryBuilder.show_nsfw (b : CommentQueryBuilder) (v : Bool) : CommentQueryBuilder :=
  { b with show_nsfw_ := v }

def CommentQueryBuilder.for_community_id (b : CommentQueryBuilder) (c : Option Int) : CommentQueryBuilder :=
  { b with community_id_ := c }

def CommentQueryBuilder.search_term (b : CommentQueryBuilder) (q : String) : CommentQueryBuilder :=
  { b with search_term_ := some q }

def CommentQueryBuilder.my_user_id (b : CommentQueryBuilder) (u : Option Int) : CommentQueryBuilder :=
  { b with my_user_id_ := u }

def CommentQueryBuilder.page (b : CommentQueryBuilder) (p : Option Int) : CommentQueryBuilder :=
  { b with page_ := p }

def CommentQueryBuilder.limit (b : CommentQueryBuilder) (l : Option Int) : CommentQueryBuilder :=
  { b with limit_ := l }

/-- Modelled from the spec: the community QueryBuilder's accumulated QuerySpec
(the builder lives in `lemmy_db::community_view`, not in the excerpt). -/
structure CommunityQueryBuilder where
  sort_ : SortType
  show_nsfw_ : Bool
  community_id_ : Option Int
  search_term_ : Option String
  my_user_id_ : Option Int
  page_ : Option Int
  limit_ : Option Int
deriving DecidableEq, Repr

/-- Modelled from the spec: builder defaults, as for posts. -/
def CommunityQueryBuilder.create : CommunityQueryBuilder :=
  { sort_ := .Hot, show_nsfw_ := false, community_id_ := none,
    search_term_ := none, my_user_id_ := none, page_ := none, limit_ := none }

def CommunityQueryBuilder.sort (b : CommunityQueryBuilder) (s : SortType) : CommunityQueryBuilder :=
  { b with sort_ := s }

def CommunityQueryBuilder.show_nsfw (b : CommunityQueryBuilder) (v : Bool) : CommunityQueryBuilder :=
  { b with show_nsfw_ := v }

def CommunityQueryBuilder.for_community_id (b : CommunityQueryBuilder) (c : Option Int) : CommunityQueryBuilder :=
  { b with community_id_ := c }

def CommunityQueryBuilder.search_term (b : CommunityQueryBuilder) (q : String) : CommunityQueryBuilder :=
  { b with search_term_ := some q }

def CommunityQueryBuilder.my_user_id (b : CommunityQueryBuilder) (u : Option Int) : CommunityQueryBuilder :=
  { b with my_user_id_ := u }

def CommunityQueryBuilder.page (b : CommunityQueryBuilder) (p : Option Int) : CommunityQueryBuilder :=
  { b with page_ := p }

def CommunityQueryBuilder.limit (b : CommunityQueryBuilder) (l : Option Int) : CommunityQueryBuilder :=
  { b with limit_ := l }

/-- Modelled from the spec: the user QueryBuilder's accumulated QuerySpec
(the builder lives in `lemmy_db::user_view`, not in the excerpt). -/
structure UserQueryBuilder where
  sort_ : SortType
  show_nsfw_ : Bool
  community_id_ : Option Int
  search_term_ : Option String
  my_user_id_ : Option Int
  page_ : Option Int
  limit_ : Option Int
deriving DecidableEq, Repr

/-- Modelled from the spec: builder defaults, as for posts. -/
def UserQueryBuilder.create : UserQueryBuilder :=
  { sort_ := .Hot, show_nsfw_ := false, community_id_ := none,
    search_term_ := none, my_user_id_ := none, page_ := none, limit_ := none }

def UserQueryBuilder.sort (b : UserQueryBuilder) (s : SortType) : UserQueryBuilder :=
  { b with sort_ := s }

def UserQueryBuilder.show_nsfw (b : UserQueryBuilder) (v : Bool) : UserQueryBuilder :=
  { b with show_nsfw_ := v }

def UserQueryBuilder.for_community_id (b : UserQueryBuilder) (c : Option Int) : UserQueryBuilder :=
  { b with community_id_ := c }

def UserQueryBuilder.search_term (b : UserQueryBuilder) (q : String) : UserQueryBuilder :=
  { b with search_term_ := some q }

def UserQueryBuilder.my_user_id (b : UserQueryBuilder) (u : Option Int) : UserQueryBuilder :=
  { b with my_user_id_ := u }

def UserQueryBuilder.page (b : UserQueryBuilder) (p : Option Int) : UserQueryBuilder :=
  { b with page_ := p }

def UserQueryBuilder.limit (b : UserQueryBuilder) (l : Option Int) : UserQueryBuilder :=
  { b with limit_ := l }

/-- The external collaborators consumed by `Search::perform`: the remote
resolver, the credential lookup (returning the optional user id), and the
four builders' terminal `list()` executions against the store. -/
structure Env where
  search_by_apub_id : String → Except LemmyError SearchResponse
  get_user_from_jwt_opt : Option String → Except LemmyError (Option Int)
  postList : PostQueryBuilder → Except LemmyError (List PostView)
  commentList : CommentQueryBuilder → Except LemmyError (List CommentView)
  communityList : CommunityQueryBuilder → Except LemmyError (List CommunityView)
  userList : UserQueryBuilder → Except LemmyError (List UserView)

/-- One observable effect of a `perform` run: a remote-resolution attempt
(network), a credential lookup (storage), or a builder `list()` execution
(storage) carrying the exact spec the builder was configured with. -/
inductive Event
  | remoteResolve (q : String)
  | credentialLookup (auth : Option String)
  | postList (spec : PostQueryBuilder)
  | commentList (spec : CommentQueryBuilder)
  | communityList (spec : CommunityQueryBuilder)
  | userList (spec : UserQueryBuilder)
deriving DecidableEq, Repr

/-- The builder chain of the `SearchType::Posts` arm (site.rs lines 484-493). -/
def postSpecPosts (q : String) (community_id user_id : Option Int)
    (sort : SortType) (page limit : Option Int) : PostQueryBuilder :=
  ((((((PostQueryBuilder.create.sort sort).show_nsfw true).for_community_id
    community_id).search_term q).my_user_id user_id).page page).limit limit

/-- The builder chain of the `SearchType::Comments` arm (lines 498-505). -/
def commentSpecComments (q : String) (user_id : Option Int)
    (sort : SortType) (page limit : Option Int) : CommentQueryBuilder :=
  ((((CommentQueryBuilder.create.sort sort).search_term q).my_user_id
    user_id).page page).limit limit

/-- The builder chain of the `SearchType::Communities` arm (lines 510-516). -/
def communitySpecCommunities (q : String) (sort : SortType)
    (page limit : Option Int) : CommunityQueryBuilder :=
  (((CommunityQueryBuilder.create.sort sort).search_term q).page page).limit limit

/-- The builder chain of the `SearchType::Users` arm (lines 521-527). -/
def userSpecUsers (q : String) (sort : SortType)
    (page limit : Option Int) : UserQueryBuilder :=
  (((UserQueryBuilder.create.sort sort).search_term q).page page).limit limit

/-- The post builder chain of the `SearchType::All` arm (lines 532-541). -/
def postSpecAll (q : String) (community_id user_id : Option Int)
    (sort : SortType) (page limit : Option Int) : PostQueryBuilder :=
  ((((((PostQueryBuilder.create.sort sort).show_nsfw true).for_community_id
    community_id).search_term q).my_user_id user_id).page page).limit limit

/-- The comment builder chain of the `SearchType::All` arm (lines 548-555). -/
def commentSpecAll (q : String) (user_id : Option Int)
    (sort : SortType) (page limit : Option Int) : CommentQueryBuilder :=
  ((((CommentQueryBuilder.create.sort sort).search_term q).my_user_id
    user_id).page page).limit limit

/-- The community builder chain of the `SearchType::All` arm (lines 562-568). -/
def communitySpecAll (q : String) (sort : SortType)
    (page limit : Option Int) : CommunityQueryBuilder :=
  (((CommunityQueryBuilder.create.sort sort).search_term q).page page).limit limit

/-- The user builder chain of the `SearchType::All` arm (lines 575-581). -/
def userSpecAll (q : String) (sort : SortType)
    (page limit : Option Int) : UserQueryBuilder :=
  (((UserQueryBuilder.create.sort sort).search_term q).page page).limit limit

/-- The builder chain of the `SearchType::Url` arm (lines 586-594): URL
search, no free-text term, no viewer id. -/
def postSpecUrl (q : String) (community_id : Option Int)
    (sort : SortType) (page limit : Option Int) : PostQueryBuilder :=
  ((((((PostQueryBuilder.create.sort sort).show_nsfw true).for_community_id
    community_id).url_search q).page page).limit limit)

/-- The typed dispatch of `Search::perform` (the `match type_` at lines
482-598): runs the builder(s) of the requested type and yields the four
result vectors, together with the trace of builder executions.  The
`SearchType::All` arm re-parses the sort string before each subsequent
builder, exactly as the source does (lines 546, 560, 573). -/
def dispatch (env : Env) (data : Search) (user_id : Option Int)
    (sort : SortType) :
    SearchType →
      Except LemmyError
          (List PostView × List CommentView × List CommunityView × List UserView)
        × List Event
  | .Posts =>
    let spec := postSpecPosts data.q data.community_id user_id sort data.page data.limit
    (match env.postList spec with
      | .error e => .error e
      | .ok posts => .ok (posts, [], [], []),
     [.postList spec])
  | .Comments =>
    let spec := commentSpecComments data.q user_id sort data.page data.limit
    (match env.commentList spec with
      | .error e => .error e
      | .ok comments => .ok ([], comments, [], []),
     [.commentList spec])
  | .Communities =>
    let spec := communitySpecCommunities data.q sort data.page data.limit
    (match env.communityList spec with
      | .error e => .error e
      | .ok communities => .ok ([], [], communities, []),
     [.communityList spec])
  | .Users =>
    let spec := userSpecUsers data.q sort data.page data.limit
    (match env.userList spec with
      | .error e => .error e
      | .ok users => .ok ([], [], [], users),
     [.userList spec])
  | .All =>
    let pspec := postSpecAll data.q data.community_id user_id sort data.page data.limit
    match env.postList pspec with
    | .error e => (.error e, [.postList pspec])
    | .ok posts =>
      match SortType.from_str data.sort with
      | .error e => (.error e, [.postList pspec])
      | .ok sort2 =>
        let cspec := commentSpecAll data.q user_id sort2 data.page data.limit
        match env.commentList cspec with
        | .error e => (.error e, [.postList pspec, .commentList cspec])
        | .ok comments =>
          match SortType.from_str data.sort with
          | .error e => (.error e, [.postList pspec, .commentList cspec])
          | .ok sort3 =>
            let mspec := communitySpecAll data.q sort3 data.page data.limit
            match env.communityList mspec with
            | .error e =>
              (.error e, [.postList pspec, .commentList cspec, .communityList mspec])
            | .ok communities =>
              match SortType.from_str data.sort with
              | .error e =>
                (.error e, [.postList pspec, .commentList cspec, .communityList mspec])
              | .ok sort4 =>
                let uspec := userSpecAll data.q sort4 data.page data.limit
                match env.userList uspec with
                | .error e =>
                  (.error e,
                   [.postList pspec, .commentList cspec, .communityList mspec,
                    .userList uspec])
                | .ok users =>
                  (.ok (posts, comments, communities, users),
                   [.postList pspec, .commentList cspec, .communityList mspec,
                    .userList uspec])
  | .Url =>
    let spec := postSpecUrl data.q data.community_id sort data.page data.limit
    (match env.postList spec with
      | .error e => .error e
      | .ok posts => .ok (posts, [], [], []),
     [.postList spec])

/-- The local-search path of `Search::perform` (lines 465-607): credential
lookup, type parse, sort parse, typed dispatch, then assembly of the
response with `type_` echoed from the request. -/
def localSearch (env : Env) (data : Search) :
    Except LemmyError SearchResponse × List Event :=
  match env.get_user_from_jwt_opt data.auth with
  | .error e => (.error e, [.credentialLookup data.auth])
  | .ok user_id =>
    match SearchType.from_str data.type_ with
    | .error e => (.error e, [.credentialLookup data.auth])
    | .ok type_ =>
      match SortType.from_str data.sort with
      | .error e => (.error e, [.credentialLookup data.auth])
      | .ok sort =>
        let d := dispatch env data user_id sort type_
        (match d.1 with
          | .error e => .error e
          | .ok (posts, comments, communities, users) =>
            .ok { type_ := data.type_, comments := comments, posts := posts,
                  communities := communities, users := users },
         Event.credentialLookup data.auth :: d.2)

/-- `Search::perform` (lines 450-608): the remote resolution is attempted
first; a hit returns its response unchanged and immediately, a miss is
logged and falls through to the local search. -/
def perform (env : Env) (data : Search) :
    Except LemmyError SearchResponse × List Event :=
  match env.search_by_apub_id data.q with
  | .ok r => (.ok r, [.remoteResolve data.q])
  | .error _ =>
    let res := localSearch env data
    (res.1, .remoteResolve data.q :: res.2)

/-- The result component of a `perform` run. -/
def performR (env : Env) (data : Search) : Except LemmyError SearchResponse :=
  (perform env data).1

/-- The event trace of a `perform` run. -/
def performEvents (env : Env) (data : Search) : List Event :=
  (perform env data).2

/-! ### Concrete collaborators for closed-input runs -/

/-- A remote-resolution hit as the spec describes it: exactly one bucket
populated (here a community), labelled by the resolver itself.  Modelled from
the spec: `search_by_apub_id` lives in `crate::apub::fetcher`, outside the
excerpt; it receives only the query string, so the label it writes cannot
depend on the requested type (the implementation labels the envelope with
the `All` variant). -/
def remoteHit : SearchResponse :=
  { type_ := "All", comments := [], posts := [],
    communities := [{ id := 42 }], users := [] }

/-- A concrete environment: one resolvable remote id, one valid token, and
builders that fail on designated search terms and otherwise return one row. -/
def envT : Env :=
  { search_by_apub_id := fun q =>
      if q = "https://remote.example/c/main" then .ok remoteHit
      else .error "couldnt_find_object",
    get_user_from_jwt_opt := fun a =>
      match a with
      | none => .ok none
      | some t => if t = "tok" then .ok (some 7) else .error "not_logged_in",
    postList := fun s =>
      if s.search_term_ = some "boom" then .error "post_backend"
      else .ok [{ id := 11 }],
    commentList := fun s =>
      if s.search_term_ = some "cboom" then .error "comment_backend"
      else .ok [{ id := 21 }],
    communityList := fun s =>
      if s.search_term_ = some "mboom" then .error "community_backend"
      else .ok [{ id := 31 }],
    userList := fun s =>
      if s.search_term_ = some "uboom" then .error "user_backend"
      else .ok [{ id := 41 }] }

/-- A request whose query resolves remotely while asking for `Posts`. -/
def dataRemote : Search :=
  { q := "https://remote.example/c/main", type_ := "Posts", community_id := none,
    sort := "New", page := none, limit := none, auth := none }

/-- A plain local request for all entity kinds. -/
def dataAll : Search :=
  { q := "cats", type_ := "All", community_id := none,
    sort := "New", page := some 1, limit := some 10, auth := some "tok" }

/-! ### Claims -/

/-- Claim C1: remote resolution is attempted before any local dispatch, and a
hit short-circuits: the resolver's response is returned unchanged and
immediately; the trace is the single resolution event, so no local
QueryBuilder (and not even the credential lookup or type validation) runs,
regardless of the requested type. -/
theorem remote_hit_short_circuits (env : Env) (data : Search)
    (r : SearchResponse) (hres : env.search_by_apub_id data.q = .ok r) :
    perform env data = (.ok r, [Event.remoteResolve data.q]) := by
  simp [perform, hres]

/-- Witness for C1: a query both resolvable remotely and matched by every
local builder, with requested type `Posts`, returns the resolver's community
envelope untouched. -/
theorem remote_hit_short_circuits_witness :
    perform envT dataRemote = (.ok remoteHit, [Event.remoteResolve dataRemote.q]) :=
  remote_hit_short_circuits envT dataRemote remoteHit rfl

/-- A request with a malformed sort whose query resolves remotely. -/
def dataBadSortRemote : Search :=
  { q := "https://remote.example/c/main", type_ := "Posts", community_id := none,
    sort := "Newest", page := none, limit := none, auth := none }

/-- A request with a malformed sort whose query does not resolve remotely. -/
def dataBadSortLocal : Search :=
  { q := "cats", type_ := "Posts", community_id := none,
    sort := "Newest", page := none, limit := none, auth := some "tok" }

/-- Claim C2 counterexample: a malformed `sort` does not fail the request
before network and credential access.  With a remotely resolvable query the
request even succeeds despite the malformed sort; with a local query it does
fail with the parse error, but only after the remote-resolution attempt
(network) and the user/credential lookup have both run, as the trace shows. -/
theorem malformed_sort_after_network_counterexample :
    SortType.from_str dataBadSortRemote.sort = .error "invalid sort type" ∧
    performR envT dataBadSortRemote = .ok remoteHit ∧
    SortType.from_str dataBadSortLocal.sort = .error "invalid sort type" ∧
    performR envT dataBadSortLocal = .error "invalid sort type" ∧
    performEvents envT dataBadSortLocal =
      [Event.remoteResolve "cats", Event.credentialLookup (some "tok")] :=
  ⟨rfl, rfl, rfl, rfl, rfl⟩

/-- Claim C2 (amended): when remote resolution does not hit, the credential
lookup succeeds and the type string parses, a malformed `sort` fails the
whole request with the sort parse error before any local QueryBuilder is
invoked — but after the remote-resolution attempt and the credential lookup,
which are the only events in the trace. -/
theorem malformed_sort_fails_before_local_builders (env : Env) (data : Search)
    (m e : LemmyError) (uid : Option Int) (t : SearchType)
    (hres : env.search_by_apub_id data.q = .error m)
    (hget : env.get_user_from_jwt_opt data.auth = .ok uid)
    (ht : SearchType.from_str data.type_ = .ok t)
    (hsort : SortType.from_str data.sort = .error e) :
    performR env data = .error e ∧
    performEvents env data =
      [Event.remoteResolve data.q, Event.credentialLookup data.auth] := by
  simp [performR, performEvents, perform, localSearch, hres, hget, ht, hsort]

/-- Witness for the amended C2 at a concrete request. -/
theorem malformed_sort_fails_before_local_builders_witness :
    performR envT dataBadSortLocal = .error "invalid sort type" ∧
    performEvents envT dataBadSortLocal =
      [Event.remoteResolve dataBadSortLocal.q,
       Event.credentialLookup dataBadSortLocal.auth] :=
  malformed_sort_fails_before_local_builders envT dataBadSortLocal
    "couldnt_find_object" "invalid sort type" (some 7) .Posts rfl rfl rfl rfl

/-- Claim C3: an error from the remote-resolution step is never surfaced: the
run falls through to the local search, whose result and trace alone determine
the outcome — replacing the resolver by one failing with any other message
leaves the result unchanged. -/
theorem resolver_error_never_surfaced (env : Env) (data : Search)
    (e : LemmyError) (hres : env.search_by_apub_id data.q = .error e) :
    performR env data = (localSearch env data).1 ∧
    performEvents env data =
      Event.remoteResolve data.q :: (localSearch env data).2 ∧
    ∀ e2 : LemmyError,
      performR { env with search_by_apub_id := fun _ => .error e2 } data =
        performR env data := by
  refine ⟨by simp [performR, perform, hres], by simp [performEvents, perform, hres], ?_⟩
  intro e2
  have h1 : performR { env with search_by_apub_id := fun _ => .error e2 } data =
      (localSearch env data).1 := by
    simp [performR, perform]
    rfl
  rw [h1]
  simp [performR, perform, hres]

/-- Witness for C3: a non-resolvable query is answered by the local path and
the resolver's error message is absent from the outcome. -/
theorem resolver_error_never_surfaced_witness :
    performR envT dataAll = (localSearch envT dataAll).1 ∧
    performEvents envT dataAll =
      Event.remoteResolve dataAll.q :: (localSearch envT dataAll).2 ∧
    performR { envT with search_by_apub_id := fun _ => .error "timeout" } dataAll =
      performR envT dataAll :=
  ⟨(resolver_error_never_surfaced envT dataAll "couldnt_find_object" rfl).1,
   (resolver_error_never_surfaced envT dataAll "couldnt_find_object" rfl).2.1,
   (resolver_error_never_surfaced envT dataAll "couldnt_find_object" rfl).2.2 "timeout"⟩

/-- On a resolver miss the request's result is the local search's result. -/
theorem performR_miss (env : Env) (data : Search) (m : LemmyError)
    (hres : env.search_by_apub_id data.q = .error m) :
    performR env data = (localSearch env data).1 := by
  simp [performR, perform, hres]

/-- Decomposition of a successful local search: the credential lookup, the
type parse, the sort parse and the typed dispatch all succeeded, and the
response is the dispatched buckets under the echoed request type. -/
theorem localSearch_ok_elim (env : Env) (data : Search) (r : SearchResponse)
    (h : (localSearch env data).1 = .ok r) :
    ∃ uid t s,
      env.get_user_from_jwt_opt data.auth = .ok uid ∧
      SearchType.from_str data.type_ = .ok t ∧
      SortType.from_str data.sort = .ok s ∧
      ∃ pcmu, (dispatch env data uid s t).1 = .ok pcmu ∧
        r = { type_ := data.type_, comments := pcmu.2.1, posts := pcmu.1,
              communities := pcmu.2.2.1, users := pcmu.2.2.2 } := by
  cases hget : env.get_user_from_jwt_opt data.auth with
  | error e => simp [localSearch, hget] at h
  | ok uid =>
    cases ht : SearchType.from_str data.type_ with
    | error e => simp [localSearch, hget, ht] at h
    | ok t =>
      cases hs : SortType.from_str data.sort with
      | error e => simp [localSearch, hget, ht, hs] at h
      | ok s =>
        simp only [localSearch, hget, ht, hs] at h
        cases hd : (dispatch env data uid s t).1 with
        | error e => simp [hd] at h
        | ok pcmu =>
          obtain ⟨posts, comments, communities, users⟩ := pcmu
          simp only [hd, Except.ok.injEq] at h
          exact ⟨uid, t, s, rfl, rfl, rfl, (posts, comments, communities, users),
            hd, h.symm⟩

/-- Claim C4: a locally dispatched request with a single-entity type that
succeeds may populate only the bucket matching that type; the other three
buckets of the (structurally complete) response are empty.  In particular a
`Url` request may populate only the posts bucket. -/
theorem single_type_populates_only_matching_bucket (env : Env) (data : Search)
    (m : LemmyError) (t : SearchType) (r : SearchResponse)
    (hres : env.search_by_apub_id data.q = .error m)
    (ht : SearchType.from_str data.type_ = .ok t)
    (hr : performR env data = .ok r) :
    (t = .Posts → r.comments = [] ∧ r.communities = [] ∧ r.users = []) ∧
    (t = .Comments → r.posts = [] ∧ r.communities = [] ∧ r.users = []) ∧
    (t = .Communities → r.posts = [] ∧ r.comments = [] ∧ r.users = []) ∧
    (t = .Users → r.posts = [] ∧ r.comments = [] ∧ r.communities = []) ∧
    (t = .Url → r.comments = [] ∧ r.communities = [] ∧ r.users = []) := by
  rw [performR_miss env data m hres] at hr
  obtain ⟨uid, t2, s, hget, ht2, hs, pcmu, hd, hr⟩ := localSearch_ok_elim env data r hr
  rw [ht] at ht2
  injection ht2 with ht2
  subst ht2
  subst hr
  cases t with
  | Posts =>
    cases hp : env.postList
        (postSpecPosts data.q data.community_id uid s data.page data.limit) with
    | error e => simp [dispatch, hp] at hd
    | ok posts =>
      simp only [dispatch, hp, Except.ok.injEq] at hd
      subst hd; simp
  | Comments =>
    cases hp : env.commentList
        (commentSpecComments data.q uid s data.page data.limit) with
    | error e => simp [dispatch, hp] at hd
    | ok comments =>
      simp only [dispatch, hp, Except.ok.injEq] at hd
      subst hd; simp
  | Communities =>
    cases hp : env.communityList
        (communitySpecCommunities data.q s data.page data.limit) with
    | error e => simp [dispatch, hp] at hd
    | ok communities =>
      simp only [dispatch, hp, Except.ok.injEq] at hd
      subst hd; simp
  | Users =>
    cases hp : env.userList (userSpecUsers data.q s data.page data.limit) with
    | error e => simp [dispatch, hp] at hd
    | ok users =>
      simp only [dispatch, hp, Except.ok.injEq] at hd
      subst hd; simp
  | All => simp
  | Url =>
    cases hp : env.postList
        (postSpecUrl data.q data.community_id s data.page data.limit) with
    | error e => simp [dispatch, hp] at hd
    | ok posts =>
      simp only [dispatch, hp, Except.ok.injEq] at hd
      subst hd; simp

/-- A `Url` request against the concrete store. -/
def dataUrl : Search :=
  { q := "https://blog.example/a", type_ := "Url", community_id := some 3,
    sort := "TopAll", page := some 2, limit := some 5, auth := some "tok" }

/-- Witness for C4: a concrete `Url` request populates only the posts
bucket. -/
theorem single_type_populates_only_matching_bucket_witness :
    ({ type_ := "Url", comments := [], posts := [{ id := 11 }],
       communities := [], users := [] } : SearchResponse).comments = [] ∧
    ({ type_ := "Url", comments := [], posts := [{ id := 11 }],
       communities := [], users := [] } : SearchResponse).communities = [] ∧
    ({ type_ := "Url", comments := [], posts := [{ id := 11 }],
       communities := [], users := [] } : SearchResponse).users = [] :=
  (single_type_populates_only_matching_bucket envT dataUrl
    "couldnt_find_object" .Url
    { type_ := "Url", comments := [], posts := [{ id := 11 }],
      communities := [], users := [] } rfl rfl rfl).2.2.2.2 rfl

/-- Claim C5: in `All` mode the four builders run in source order (posts,
comments, communities, users) under short-circuiting error propagation: the
first builder `list()` that errors fails the whole request with exactly that
error and no partial response exists; when all four succeed, the response
carries all four result sequences. -/
theorem all_mode_error_propagation (env : Env) (data : Search)
    (mm : LemmyError) (uid : Option Int) (s : SortType)
    (hres : env.search_by_apub_id data.q = .error mm)
    (hget : env.get_user_from_jwt_opt data.auth = .ok uid)
    (ht : SearchType.from_str data.type_ = .ok .All)
    (hs : SortType.from_str data.sort = .ok s) :
    (∀ e, env.postList
        (postSpecAll data.q data.community_id uid s data.page data.limit) = .error e →
      performR env data = .error e) ∧
    (∀ posts e, env.postList
        (postSpecAll data.q data.community_id uid s data.page data.limit) = .ok posts →
      env.commentList (commentSpecAll data.q uid s data.page data.limit) = .error e →
      performR env data = .error e) ∧
    (∀ posts comments e, env.postList
        (postSpecAll data.q data.community_id uid s data.page data.limit) = .ok posts →
      env.commentList (commentSpecAll data.q uid s data.page data.limit) = .ok comments →
      env.communityList (communitySpecAll data.q s data.page data.limit) = .error e →
      performR env data = .error e) ∧
    (∀ posts comments communities e, env.postList
        (postSpecAll data.q data.community_id uid s data.page data.limit) = .ok posts →
      env.commentList (commentSpecAll data.q uid s data.page data.limit) = .ok comments →
      env.communityList (communitySpecAll data.q s data.page data.limit) = .ok communities →
      env.userList (userSpecAll data.q s data.page data.limit) = .error e →
      performR env data = .error e) ∧
    (∀ posts comments communities users, env.postList
        (postSpecAll data.q data.community_id uid s data.page data.limit) = .ok posts →
      env.commentList (commentSpecAll data.q uid s data.page data.limit) = .ok comments →
      env.communityList (communitySpecAll data.q s data.page data.limit) = .ok communities →
      env.userList (userSpecAll data.q s data.page data.limit) = .ok users →
      performR env data =
        .ok { type_ := data.type_, comments := comments, posts := posts,
              communities := communities, users := users }) := by
  have hL := performR_miss env data mm hres
  refine ⟨?_, ?_, ?_, ?_, ?_⟩
  · intro e hp
    rw [hL]; simp [localSearch, hget, ht, hs, dispatch, hp]
  · intro posts e hp hc
    rw [hL]; simp [localSearch, hget, ht, hs, dispatch, hp, hc]
  · intro posts comments e hp hc hm
    rw [hL]; simp [localSearch, hget, ht, hs, dispatch, hp, hc, hm]
  · intro posts comments communities e hp hc hm hu
    rw [hL]; simp [localSearch, hget, ht, hs, dispatch, hp, hc, hm, hu]
  · intro posts comments communities users hp hc hm hu
    rw [hL]; simp [localSearch, hget, ht, hs, dispatch, hp, hc, hm, hu]

/-- An `All` request whose post query fails on the backend. -/
def dataAllBoom : Search :=
  { q := "boom", type_ := "All", community_id := none,
    sort := "Hot", page := none, limit := none, auth := none }

/-- An `All` request whose comment query fails on the backend. -/
def dataAllCboom : Search :=
  { q := "cboom", type_ := "All", community_id := none,
    sort := "Hot", page := none, limit := none, auth := none }

/-- Witness for C5: a failing post backend fails the whole `All` request, a
failing comment backend does too, and with a healthy store all four buckets
arrive. -/
theorem all_mode_error_propagation_witness :
    performR envT dataAllBoom = .error "post_backend" ∧
    performR envT dataAllCboom = .error "comment_backend" ∧
    performR envT dataAll =
      .ok { type_ := dataAll.type_, comments := [{ id := 21 }],
            posts := [{ id := 11 }], communities := [{ id := 31 }],
            users := [{ id := 41 }] } :=
  ⟨(all_mode_error_propagation envT dataAllBoom "couldnt_find_object" none .Hot
      rfl rfl rfl rfl).1 "post_backend" rfl,
   (all_mode_error_propagation envT dataAllCboom "couldnt_find_object" none .Hot
      rfl rfl rfl rfl).2.1 [{ id := 11 }] "comment_backend" rfl rfl,
   (all_mode_error_propagation envT dataAll "couldnt_find_object" (some 7) .New
      rfl rfl rfl rfl).2.2.2.2 [{ id := 11 }] [{ id := 21 }] [{ id := 31 }]
      [{ id := 41 }] rfl rfl rfl rfl⟩

/-- The `All` arm's post builder chain coincides with the `Posts` arm's. -/
theorem postSpecAll_eq (q : String) (c u : Option Int) (s : SortType)
    (p l : Option Int) : postSpecAll q c u s p l = postSpecPosts q c u s p l := rfl

/-- The `All` arm's comment builder chain coincides with the `Comments`
arm's. -/
theorem commentSpecAll_eq (q : String) (u : Option Int) (s : SortType)
    (p l : Option Int) : commentSpecAll q u s p l = commentSpecComments q u s p l := rfl

/-- The `All` arm's community builder chain coincides with the `Communities`
arm's. -/
theorem communitySpecAll_eq (q : String) (s : SortType) (p l : Option Int) :
    communitySpecAll q s p l = communitySpecCommunities q s p l := rfl

/-- The `All` arm's user builder chain coincides with the `Users` arm's. -/
theorem userSpecAll_eq (q : String) (s : SortType) (p l : Option Int) :
    userSpecAll q s p l = userSpecUsers q s p l := rfl

/-- Claim C6: when an `All` request succeeds, each bucket is exactly what the
corresponding single-type request (same query, sort, page, limit, community
scope and requester) would return: the single-type dispatches succeed and
agree bucket-for-bucket with the aggregate. -/
theorem all_mode_buckets_agree_with_single_dispatch (env : Env) (data : Search)
    (mm : LemmyError) (r : SearchResponse)
    (hres : env.search_by_apub_id data.q = .error mm)
    (htype : data.type_ = "All")
    (hr : performR env data = .ok r) :
    performR env { data with type_ := "Posts" } =
      .ok { type_ := "Posts", comments := [], posts := r.posts,
            communities := [], users := [] } ∧
    performR env { data with type_ := "Comments" } =
      .ok { type_ := "Comments", comments := r.comments, posts := [],
            communities := [], users := [] } ∧
    performR env { data with type_ := "Communities" } =
      .ok { type_ := "Communities", comments := [], posts := [],
            communities := r.communities, users := [] } ∧
    performR env { data with type_ := "Users" } =
      .ok { type_ := "Users", comments := [], posts := [],
            communities := [], users := r.users } := by
  rw [performR_miss env data mm hres] at hr
  obtain ⟨uid, t, s, hget, ht, hs, pcmu, hd, hr⟩ := localSearch_ok_elim env data r hr
  rw [htype] at ht
  have htAll : t = .All := by
    simpa [SearchType.from_str] using ht.symm
  subst htAll
  simp only [dispatch, hs] at hd
  cases hp : env.postList
      (postSpecAll data.q data.community_id uid s data.page data.limit) with
  | error e => simp [hp] at hd
  | ok posts =>
  cases hc : env.commentList (commentSpecAll data.q uid s data.page data.limit) with
  | error e => simp [hp, hc] at hd
  | ok comments =>
  cases hm : env.communityList (communitySpecAll data.q s data.page data.limit) with
  | error e => simp [hp, hc, hm] at hd
  | ok communities =>
  cases hu : env.userList (userSpecAll data.q s data.page data.limit) with
  | error e => simp [hp, hc, hm, hu] at hd
  | ok users =>
  simp only [hp, hc, hm, hu, Except.ok.injEq] at hd
  subst hd
  subst hr
  rw [postSpecAll_eq] at hp
  rw [commentSpecAll_eq] at hc
  rw [communitySpecAll_eq] at hm
  rw [userSpecAll_eq] at hu
  refine ⟨?_, ?_, ?_, ?_⟩ <;>
    simp [performR, perform, localSearch, dispatch, hres, hget, hs, hp, hc, hm, hu,
      show SearchType.from_str "Posts" = .ok .Posts from rfl,
      show SearchType.from_str "Comments" = .ok .Comments from rfl,
      show SearchType.from_str "Communities" = .ok .Communities from rfl,
      show SearchType.from_str "Users" = .ok .Users from rfl]

/-- Witness for C6 at a concrete `All` request against the concrete store. -/
theorem all_mode_buckets_agree_with_single_dispatch_witness :
    performR envT { dataAll with type_ := "Posts" } =
      .ok { type_ := "Posts", comments := [], posts := [{ id := 11 }],
            communities := [], users := [] } ∧
    performR envT { dataAll with type_ := "Comments" } =
      .ok { type_ := "Comments", comments := [{ id := 21 }], posts := [],
            communities := [], users := [] } ∧
    performR envT { dataAll with type_ := "Communities" } =
      .ok { type_ := "Communities", comments := [], posts := [],
            communities := [{ id := 31 }], users := [] } ∧
    performR envT { dataAll with type_ := "Users" } =
      .ok { type_ := "Users", comments := [], posts := [],
            communities := [], users := [{ id := 41 }] } :=
  all_mode_buckets_agree_with_single_dispatch envT dataAll "couldnt_find_object"
    { type_ := "All", comments := [{ id := 21 }], posts := [{ id := 11 }],
      communities := [{ id := 31 }], users := [{ id := 41 }] } rfl rfl rfl

/-- Claim C7 counterexample: `search_by_apub_id` receives only the query
string (site.rs line 460) and its response is returned unchanged by the
early return (line 461), so the remote-resolved path cannot echo the
requested type: a request for `Posts` that resolves remotely to a community
comes back carrying the resolver's own label (the `All` variant, per the
spec-modelled resolver), not the request's type string. -/
theorem remote_type_echo_counterexample :
    dataRemote.type_ = "Posts" ∧
    performR envT dataRemote = .ok remoteHit ∧
    remoteHit.type_ = "All" ∧
    remoteHit.type_ ≠ dataRemote.type_ :=
  ⟨rfl, rfl, rfl, by decide⟩

/-- Claim C7 (amended): on the locally dispatched path the response's
`type_` is the request's type string echoed verbatim; a remote-resolved
response is returned unchanged, so its label is whatever the resolver wrote
and is independent of the requested type. -/
theorem local_response_echoes_requested_type (env : Env) (data : Search)
    (m : LemmyError) (r : SearchResponse)
    (hres : env.search_by_apub_id data.q = .error m)
    (hr : performR env data = .ok r) :
    r.type_ = data.type_ := by
  rw [performR_miss env data m hres] at hr
  obtain ⟨uid, t, s, hget, ht, hs, pcmu, hd, hr⟩ := localSearch_ok_elim env data r hr
  subst hr
  rfl

/-- Witness for the amended C7: the concrete `All` request's response is
labelled `"All"`, the request's exact type string. -/
theorem local_response_echoes_requested_type_witness :
    ({ type_ := "All", comments := [{ id := 21 }], posts := [{ id := 11 }],
       communities := [{ id := 31 }], users := [{ id := 41 }] } :
        SearchResponse).type_ = dataAll.type_ :=
  local_response_echoes_requested_type envT dataAll "couldnt_find_object"
    { type_ := "All", comments := [{ id := 21 }], posts := [{ id := 11 }],
      communities := [{ id := 31 }], users := [{ id := 41 }] } rfl rfl

/-- Every event of a run is the remote-resolution attempt, the credential
lookup, or a builder event of the successfully validated dispatch. -/
theorem performEvents_to_dispatch (env : Env) (data : Search) (e : Event)
    (he : e ∈ performEvents env data) :
    e = .remoteResolve data.q ∨ e = .credentialLookup data.auth ∨
    ∃ uid t s, env.get_user_from_jwt_opt data.auth = .ok uid ∧
      SearchType.from_str data.type_ = .ok t ∧
      SortType.from_str data.sort = .ok s ∧
      e ∈ (dispatch env data uid s t).2 := by
  unfold performEvents perform at he
  cases hres : env.search_by_apub_id data.q with
  | ok r =>
    rw [hres] at he
    simp only [List.mem_singleton] at he
    exact Or.inl he
  | error m =>
    rw [hres] at he
    simp only [List.mem_cons] at he
    rcases he with he | he
    · exact Or.inl he
    · unfold localSearch at he
      cases hget : env.get_user_from_jwt_opt data.auth with
      | error e2 =>
        rw [hget] at he
        simp only [List.mem_singleton] at he
        exact Or.inr (Or.inl he)
      | ok uid =>
        rw [hget] at he
        cases ht : SearchType.from_str data.type_ with
        | error e2 =>
          rw [ht] at he
          simp only [List.mem_singleton] at he
          exact Or.inr (Or.inl he)
        | ok t =>
          rw [ht] at he
          cases hs : SortType.from_str data.sort with
          | error e2 =>
            rw [hs] at he
            simp only [List.mem_singleton] at he
            exact Or.inr (Or.inl he)
          | ok s =>
            rw [hs] at he
            simp only [List.mem_cons] at he
            rcases he with he | he
            · exact Or.inr (Or.inl he)
            · exact Or.inr (Or.inr ⟨uid, t, s, rfl, rfl, rfl, he⟩)

/-- Enumeration of the builder events a dispatch can emit, with the exact
configured spec per arm. -/
theorem dispatch_events (env : Env) (data : Search) (uid : Option Int)
    (s : SortType) (t : SearchType) (e : Event)
    (h : e ∈ (dispatch env data uid s t).2) :
    (t = .Posts ∧
      e = .postList (postSpecPosts data.q data.community_id uid s data.page data.limit)) ∨
    (t = .Comments ∧
      e = .commentList (commentSpecComments data.q uid s data.page data.limit)) ∨
    (t = .Communities ∧
      e = .communityList (communitySpecCommunities data.q s data.page data.limit)) ∨
    (t = .Users ∧ e = .userList (userSpecUsers data.q s data.page data.limit)) ∨
    (t = .All ∧
      (e = .postList (postSpecAll data.q data.community_id uid s data.page data.limit) ∨
       ∃ s2, SortType.from_str data.sort = .ok s2 ∧
         (e = .commentList (commentSpecAll data.q uid s2 data.page data.limit) ∨
          e = .communityList (communitySpecAll data.q s2 data.page data.limit) ∨
          e = .userList (userSpecAll data.q s2 data.page data.limit)))) ∨
    (t = .Url ∧
      e = .postList (postSpecUrl data.q data.community_id s data.page data.limit)) := by
  cases t with
  | Posts =>
    simp only [dispatch, List.mem_singleton] at h
    exact Or.inl ⟨rfl, h⟩
  | Comments =>
    simp only [dispatch, List.mem_singleton] at h
    exact Or.inr (Or.inl ⟨rfl, h⟩)
  | Communities =>
    simp only [dispatch, List.mem_singleton] at h
    exact Or.inr (Or.inr (Or.inl ⟨rfl, h⟩))
  | Users =>
    simp only [dispatch, List.mem_singleton] at h
    exact Or.inr (Or.inr (Or.inr (Or.inl ⟨rfl, h⟩)))
  | Url =>
    simp only [dispatch, List.mem_singleton] at h
    exact Or.inr (Or.inr (Or.inr (Or.inr (Or.inr ⟨rfl, h⟩))))
  | All =>
    refine Or.inr (Or.inr (Or.inr (Or.inr (Or.inl ⟨rfl, ?_⟩))))
    cases hsp : SortType.from_str data.sort with
    | error e2 =>
      simp only [dispatch, hsp] at h
      cases hp : env.postList
          (postSpecAll data.q data.community_id uid s data.page data.limit) with
      | error e3 =>
        simp only [hp, List.mem_singleton] at h
        exact Or.inl h
      | ok posts =>
        simp only [hp, List.mem_singleton] at h
        exact Or.inl h
    | ok s2 =>
      simp only [dispatch, hsp] at h
      cases hp : env.postList
          (postSpecAll data.q data.community_id uid s data.page data.limit) with
      | error e3 =>
        simp only [hp, List.mem_singleton] at h
        exact Or.inl h
      | ok posts =>
        cases hc : env.commentList
            (commentSpecAll data.q uid s2 data.page data.limit) with
        | error e3 =>
          simp only [hp, hc, List.mem_cons, List.mem_singleton,
            List.not_mem_nil, or_false] at h
          rcases h with h | h
          · exact Or.inl h
          · exact Or.inr ⟨s2, rfl, Or.inl h⟩
        | ok comments =>
          cases hm : env.communityList
              (communitySpecAll data.q s2 data.page data.limit) with
          | error e3 =>
            simp only [hp, hc, hm, List.mem_cons, List.not_mem_nil,
              or_false] at h
            rcases h with h | h | h
            · exact Or.inl h
            · exact Or.inr ⟨s2, rfl, Or.inl h⟩
            · exact Or.inr ⟨s2, rfl, Or.inr (Or.inl h)⟩
          | ok communities =>
            cases hu : env.userList
                (userSpecAll data.q s2 data.page data.limit) with
            | error e3 =>
              simp only [hp, hc, hm, hu, List.mem_cons, List.not_mem_nil,
                or_false] at h
              rcases h with h | h | h | h
              · exact Or.inl h
              · exact Or.inr ⟨s2, rfl, Or.inl h⟩
              · exact Or.inr ⟨s2, rfl, Or.inr (Or.inl h)⟩
              · exact Or.inr ⟨s2, rfl, Or.inr (Or.inr h)⟩
            | ok users =>
              simp only [hp, hc, hm, hu, List.mem_cons, List.not_mem_nil,
                or_false] at h
              rcases h with h | h | h | h
              · exact Or.inl h
              · exact Or.inr ⟨s2, rfl, Or.inl h⟩
              · exact Or.inr ⟨s2, rfl, Or.inr (Or.inl h)⟩
              · exact Or.inr ⟨s2, rfl, Or.inr (Or.inr h)⟩

/-- Claim C8: every post query the dispatcher ever issues — from the
`Posts` arm, the `All` arm's post builder, or the `Url` arm — carries
`show_nsfw = true`; the flag is fixed by the dispatcher and no field of the
request can turn it off. -/
theorem post_queries_always_show_nsfw (env : Env) (data : Search)
    (spec : PostQueryBuilder)
    (h : Event.postList spec ∈ performEvents env data) :
    spec.show_nsfw_ = true := by
  rcases performEvents_to_dispatch env data _ h with h1 | h1 | ⟨uid, t, s, _, _, _, hd⟩
  · simp at h1
  · simp at h1
  · rcases dispatch_events env data uid s t _ hd with
      ⟨_, h2⟩ | ⟨_, h2⟩ | ⟨_, h2⟩ | ⟨_, h2⟩ | ⟨_, hAll⟩ | ⟨_, h2⟩
    · simp only [Event.postList.injEq] at h2
      subst h2; rfl
    · exact absurd h2 (by simp)
    · exact absurd h2 (by simp)
    · exact absurd h2 (by simp)
    · rcases hAll with h2 | ⟨s2, _, h2 | h2 | h2⟩
      · simp only [Event.postList.injEq] at h2
        subst h2; rfl
      · exact absurd h2 (by simp)
      · exact absurd h2 (by simp)
      · exact absurd h2 (by simp)
    · simp only [Event.postList.injEq] at h2
      subst h2; rfl

/-- Witness for C8: the post spec issued by a concrete `All` run has the
NSFW flag on, although nothing in the request asked for it. -/
theorem post_queries_always_show_nsfw_witness :
    (postSpecAll "cats" none (some 7) .New (some 1) (some 10)).show_nsfw_ = true :=
  post_queries_always_show_nsfw envT dataAll
    (postSpecAll "cats" none (some 7) .New (some 1) (some 10)) (by decide)

/-- Decomposition of a successful `All` dispatch into the four builder
calls it made. -/
theorem dispatch_all_ok_elim (env : Env) (data : Search) (uid : Option Int)
    (s : SortType)
    (pcmu : List PostView × List CommentView × List CommunityView × List UserView)
    (hs : SortType.from_str data.sort = .ok s)
    (hd : (dispatch env data uid s .All).1 = .ok pcmu) :
    env.postList
        (postSpecAll data.q data.community_id uid s data.page data.limit) =
      .ok pcmu.1 ∧
    env.commentList (commentSpecAll data.q uid s data.page data.limit) =
      .ok pcmu.2.1 ∧
    env.communityList (communitySpecAll data.q s data.page data.limit) =
      .ok pcmu.2.2.1 ∧
    env.userList (userSpecAll data.q s data.page data.limit) = .ok pcmu.2.2.2 := by
  simp only [dispatch, hs] at hd
  cases hp : env.postList
      (postSpecAll data.q data.community_id uid s data.page data.limit) with
  | error e => simp [hp] at hd
  | ok posts =>
  cases hc : env.commentList (commentSpecAll data.q uid s data.page data.limit) with
  | error e => simp [hp, hc] at hd
  | ok comments =>
  cases hm : env.communityList (communitySpecAll data.q s data.page data.limit) with
  | error e => simp [hp, hc, hm] at hd
  | ok communities =>
  cases hu : env.userList (userSpecAll data.q s data.page data.limit) with
  | error e => simp [hp, hc, hm, hu] at hd
  | ok users =>
  simp only [hp, hc, hm, hu, Except.ok.injEq] at hd
  subst hd
  exact ⟨rfl, rfl, rfl, rfl⟩

/-- Claim C9: the `community_id` scope reaches only the post builders: runs
whose type is `Comments`, `Communities` or `Users` are identical (result and
trace) whether the scope is present or absent; the comment, community and
user builder specs always carry no community scope; and in `All` mode the
comment, community and user buckets do not depend on `community_id`. -/
theorem community_scope_only_affects_post_queries :
    (∀ (env : Env) (data : Search) (cid : Option Int),
      data.type_ = "Comments" ∨ data.type_ = "Communities" ∨
        data.type_ = "Users" →
      perform env { data with community_id := cid } = perform env data) ∧
    (∀ (env : Env) (data : Search) (spec : CommentQueryBuilder),
      Event.commentList spec ∈ performEvents env data →
        spec.community_id_ = none) ∧
    (∀ (env : Env) (data : Search) (spec : CommunityQueryBuilder),
      Event.communityList spec ∈ performEvents env data →
        spec.community_id_ = none) ∧
    (∀ (env : Env) (data : Search) (spec : UserQueryBuilder),
      Event.userList spec ∈ performEvents env data →
        spec.community_id_ = none) ∧
    (∀ (env : Env) (data : Search) (cid : Option Int) (r r2 : SearchResponse),
      data.type_ = "All" →
      performR env { data with community_id := cid } = .ok r →
      performR env data = .ok r2 →
      r.comments = r2.comments ∧ r.communities = r2.communities ∧
        r.users = r2.users) := by
  refine ⟨?_, ?_, ?_, ?_, ?_⟩
  · intro env data cid htype
    cases hres : env.search_by_apub_id data.q with
    | ok r => simp [perform, hres]
    | error m =>
      cases hget : env.get_user_from_jwt_opt data.auth with
      | error e => simp [perform, localSearch, hres, hget]
      | ok uid =>
        cases hsort : SortType.from_str data.sort with
        | error e =>
          rcases htype with h | h | h <;>
            simp [perform, localSearch, hres, hget, hsort, h,
              show SearchType.from_str "Comments" = .ok .Comments from rfl,
              show SearchType.from_str "Communities" = .ok .Communities from rfl,
              show SearchType.from_str "Users" = .ok .Users from rfl]
        | ok s =>
          rcases htype with h | h | h <;>
            simp [perform, localSearch, dispatch, hres, hget, hsort, h,
              show SearchType.from_str "Comments" = .ok .Comments from rfl,
              show SearchType.from_str "Communities" = .ok .Communities from rfl,
              show SearchType.from_str "Users" = .ok .Users from rfl]
  · intro env data spec h
    rcases performEvents_to_dispatch env data _ h with h1 | h1 | ⟨uid, t, s, _, _, _, hd⟩
    · simp at h1
    · simp at h1
    · rcases dispatch_events env data uid s t _ hd with
        ⟨_, h2⟩ | ⟨_, h2⟩ | ⟨_, h2⟩ | ⟨_, h2⟩ | ⟨_, hAll⟩ | ⟨_, h2⟩
      · exact absurd h2 (by simp)
      · simp only [Event.commentList.injEq] at h2
        subst h2; rfl
      · exact absurd h2 (by simp)
      · exact absurd h2 (by simp)
      · rcases hAll with h2 | ⟨s2, _, h2 | h2 | h2⟩
        · exact absurd h2 (by simp)
        · simp only [Event.commentList.injEq] at h2
          subst h2; rfl
        · exact absurd h2 (by simp)
        · exact absurd h2 (by simp)
      · exact absurd h2 (by simp)
  · intro env data spec h
    rcases performEvents_to_dispatch env data _ h with h1 | h1 | ⟨uid, t, s, _, _, _, hd⟩
    · simp at h1
    · simp at h1
    · rcases dispatch_events env data uid s t _ hd with
        ⟨_, h2⟩ | ⟨_, h2⟩ | ⟨_, h2⟩ | ⟨_, h2⟩ | ⟨_, hAll⟩ | ⟨_, h2⟩
      · exact absurd h2 (by simp)
      · exact absurd h2 (by simp)
      · simp only [Event.communityList.injEq] at h2
        subst h2; rfl
      · exact absurd h2 (by simp)
      · rcases hAll with h2 | ⟨s2, _, h2 | h2 | h2⟩
        · exact absurd h2 (by simp)
        · exact absurd h2 (by simp)
        · simp only [Event.communityList.injEq] at h2
          subst h2; rfl
        · exact absurd h2 (by simp)
      · exact absurd h2 (by simp)
  · intro env data spec h
    rcases performEvents_to_dispatch env data _ h with h1 | h1 | ⟨uid, t, s, _, _, _, hd⟩
    · simp at h1
    · simp at h1
    · rcases dispatch_events env data uid s t _ hd with
        ⟨_, h2⟩ | ⟨_, h2⟩ | ⟨_, h2⟩ | ⟨_, h2⟩ | ⟨_, hAll⟩ | ⟨_, h2⟩
      · exact absurd h2 (by simp)
      · exact absurd h2 (by simp)
      · exact absurd h2 (by simp)
      · simp only [Event.userList.injEq] at h2
        subst h2; rfl
      · rcases hAll with h2 | ⟨s2, _, h2 | h2 | h2⟩
        · exact absurd h2 (by simp)
        · exact absurd h2 (by simp)
        · exact absurd h2 (by simp)
        · simp only [Event.userList.injEq] at h2
          subst h2; rfl
      · exact absurd h2 (by simp)
  · intro env data cid r r2 htype hr hr2
    cases hres : env.search_by_apub_id data.q with
    | ok rr =>
      have h1 : performR env { data with community_id := cid } = .ok rr := by
        simp [performR, perform, hres]
      have h2 : performR env data = .ok rr := by
        simp [performR, perform, hres]
      rw [h1, Except.ok.injEq] at hr
      rw [h2, Except.ok.injEq] at hr2
      subst hr; subst hr2
      exact ⟨rfl, rfl, rfl⟩
    | error m =>
      rw [performR_miss env { data with community_id := cid } m hres] at hr
      rw [performR_miss env data m hres] at hr2
      obtain ⟨uid, t, s, hget, ht, hs, pcmu, hd, hre⟩ :=
        localSearch_ok_elim _ _ _ hr
      obtain ⟨uid2, t2, s2, hget2, ht2, hs2, pcmu2, hd2, hre2⟩ :=
        localSearch_ok_elim _ _ _ hr2
      have hgg : env.get_user_from_jwt_opt data.auth = .ok uid := hget
      rw [hgg, Except.ok.injEq] at hget2
      subst hget2
      have hss : SortType.from_str data.sort = .ok s := hs
      rw [hss, Except.ok.injEq] at hs2
      subst hs2
      have htt : SearchType.from_str data.type_ = .ok t := ht
      have htA : t = .All := by
        rw [htype] at htt
        simpa [SearchType.from_str] using htt.symm
      have htA2 : t2 = .All := by
        rw [htype] at ht2
        simpa [SearchType.from_str] using ht2.symm
      subst htA; subst htA2
      have h1e := dispatch_all_ok_elim env { data with community_id := cid }
        uid s pcmu hss hd
      have h2e := dispatch_all_ok_elim env data uid s pcmu2 hss hd2
      have hc1 : env.commentList (commentSpecAll data.q uid s data.page data.limit) =
          .ok pcmu.2.1 := h1e.2.1
      have hm1 : env.communityList (communitySpecAll data.q s data.page data.limit) =
          .ok pcmu.2.2.1 := h1e.2.2.1
      have hu1 : env.userList (userSpecAll data.q s data.page data.limit) =
          .ok pcmu.2.2.2 := h1e.2.2.2
      have hc2 := h2e.2.1
      have hm2 := h2e.2.2.1
      have hu2 := h2e.2.2.2
      rw [hc1, Except.ok.injEq] at hc2
      rw [hm1, Except.ok.injEq] at hm2
      rw [hu1, Except.ok.injEq] at hu2
      subst hre; subst hre2
      exact ⟨hc2, hm2, hu2⟩

/-- A plain comment search request. -/
def dataComments : Search :=
  { q := "cats", type_ := "Comments", community_id := none, sort := "Hot",
    page := none, limit := none, auth := none }

/-- Witness for C9: adding a community scope to a `Comments` request changes
nothing; the comment, community and user specs of a concrete `All` run carry
no scope; and the non-post buckets of a scoped and an unscoped `All` run
coincide. -/
theorem community_scope_only_affects_post_queries_witness :
    perform envT { dataComments with community_id := some 9 } =
      perform envT dataComments ∧
    (commentSpecAll "cats" (some 7) .New (some 1) (some 10)).community_id_ = none ∧
    (communitySpecAll "cats" .New (some 1) (some 10)).community_id_ = none ∧
    (userSpecAll "cats" .New (some 1) (some 10)).community_id_ = none ∧
    (({ type_ := "All", comments := [{ id := 21 }], posts := [{ id := 11 }],
        communities := [{ id := 31 }], users := [{ id := 41 }] } :
          SearchResponse).comments =
        ({ type_ := "All", comments := [{ id := 21 }], posts := [{ id := 11 }],
           communities := [{ id := 31 }], users := [{ id := 41 }] } :
             SearchResponse).comments ∧
      ({ type_ := "All", comments := [{ id := 21 }], posts := [{ id := 11 }],
         communities := [{ id := 31 }], users := [{ id := 41 }] } :
           SearchResponse).communities =
        ({ type_ := "All", comments := [{ id := 21 }], posts := [{ id := 11 }],
           communities := [{ id := 31 }], users := [{ id := 41 }] } :
             SearchResponse).communities ∧
      ({ type_ := "All", comments := [{ id := 21 }], posts := [{ id := 11 }],
         communities := [{ id := 31 }], users := [{ id := 41 }] } :
           SearchResponse).users =
        ({ type_ := "All", comments := [{ id := 21 }], posts := [{ id := 11 }],
           communities := [{ id := 31 }], users := [{ id := 41 }] } :
             SearchResponse).users) :=
  ⟨community_scope_only_affects_post_queries.1 envT dataComments (some 9)
      (Or.inl rfl),
   community_scope_only_affects_post_queries.2.1 envT dataAll
      (commentSpecAll "cats" (some 7) .New (some 1) (some 10)) (by decide),
   community_scope_only_affects_post_queries.2.2.1 envT dataAll
      (communitySpecAll "cats" .New (some 1) (some 10)) (by decide),
   community_scope_only_affects_post_queries.2.2.2.1 envT dataAll
      (userSpecAll "cats" .New (some 1) (some 10)) (by decide),
   community_scope_only_affects_post_queries.2.2.2.2 envT dataAll (some 5)
      { type_ := "All", comments := [{ id := 21 }], posts := [{ id := 11 }],
        communities := [{ id := 31 }], users := [{ id := 41 }] }
      { type_ := "All", comments := [{ id := 21 }], posts := [{ id := 11 }],
        communities := [{ id := 31 }], users := [{ id := 41 }] }
      rfl rfl rfl⟩

/-- Claim C10: `Url` search never passes the requester's identity to the
post builder, so its outcome is the same for any two successfully resolved
requesters (authenticated or anonymous); and the community and user builders
are never handed a viewer id by any arm. -/
theorem url_and_actor_queries_ignore_requester :
    (∀ (env : Env) (data : Search) (a1 a2 : Option String) (u1 u2 : Option Int),
      data.type_ = "Url" →
      env.get_user_from_jwt_opt a1 = .ok u1 →
      env.get_user_from_jwt_opt a2 = .ok u2 →
      performR env { data with auth := a1 } =
        performR env { data with auth := a2 }) ∧
    (∀ (env : Env) (data : Search) (spec : PostQueryBuilder),
      data.type_ = "Url" →
      Event.postList spec ∈ performEvents env data → spec.my_user_id_ = none) ∧
    (∀ (env : Env) (data : Search) (spec : CommunityQueryBuilder),
      Event.communityList spec ∈ performEvents env data →
        spec.my_user_id_ = none) ∧
    (∀ (env : Env) (data : Search) (spec : UserQueryBuilder),
      Event.userList spec ∈ performEvents env data → spec.my_user_id_ = none) := by
  refine ⟨?_, ?_, ?_, ?_⟩
  · intro env data a1 a2 u1 u2 htype hg1 hg2
    cases hres : env.search_by_apub_id data.q with
    | ok r => simp [performR, perform, hres]
    | error m =>
      cases hsort : SortType.from_str data.sort with
      | error e =>
        simp [performR, perform, localSearch, hres, hg1, hg2, htype, hsort,
          show SearchType.from_str "Url" = .ok .Url from rfl]
      | ok s =>
        simp [performR, perform, localSearch, dispatch, hres, hg1, hg2, htype,
          hsort, show SearchType.from_str "Url" = .ok .Url from rfl]
  · intro env data spec htype h
    rcases performEvents_to_dispatch env data _ h with h1 | h1 | ⟨uid, t, s, _, ht, _, hd⟩
    · simp at h1
    · simp at h1
    · have htU : t = .Url := by
        rw [htype] at ht
        simpa [SearchType.from_str] using ht.symm
      subst htU
      rcases dispatch_events env data uid s .Url _ hd with
        ⟨h2, _⟩ | ⟨h2, _⟩ | ⟨h2, _⟩ | ⟨h2, _⟩ | ⟨h2, _⟩ | ⟨_, h2⟩
      · exact absurd h2 (by simp)
      · exact absurd h2 (by simp)
      · exact absurd h2 (by simp)
      · exact absurd h2 (by simp)
      · exact absurd h2 (by simp)
      · simp only [Event.postList.injEq] at h2
        subst h2; rfl
  · intro env data spec h
    rcases performEvents_to_dispatch env data _ h with h1 | h1 | ⟨uid, t, s, _, _, _, hd⟩
    · simp at h1
    · simp at h1
    · rcases dispatch_events env data uid s t _ hd with
        ⟨_, h2⟩ | ⟨_, h2⟩ | ⟨_, h2⟩ | ⟨_, h2⟩ | ⟨_, hAll⟩ | ⟨_, h2⟩
      · exact absurd h2 (by simp)
      · exact absurd h2 (by simp)
      · simp only [Event.communityList.injEq] at h2
        subst h2; rfl
      · exact absurd h2 (by simp)
      · rcases hAll with h2 | ⟨s2, _, h2 | h2 | h2⟩
        · exact absurd h2 (by simp)
        · exact absurd h2 (by simp)
        · simp only [Event.communityList.injEq] at h2
          subst h2; rfl
        · exact absurd h2 (by simp)
      · exact absurd h2 (by simp)
  · intro env data spec h
    rcases performEvents_to_dispatch env data _ h with h1 | h1 | ⟨uid, t, s, _, _, _, hd⟩
    · simp at h1
    · simp at h1
    · rcases dispatch_events env data uid s t _ hd with
        ⟨_, h2⟩ | ⟨_, h2⟩ | ⟨_, h2⟩ | ⟨_, h2⟩ | ⟨_, hAll⟩ | ⟨_, h2⟩
      · exact absurd h2 (by simp)
      · exact absurd h2 (by simp)
      · exact absurd h2 (by simp)
      · simp only [Event.userList.injEq] at h2
        subst h2; rfl
      · rcases hAll with h2 | ⟨s2, _, h2 | h2 | h2⟩
        · exact absurd h2 (by simp)
        · exact absurd h2 (by simp)
        · exact absurd h2 (by simp)
        · simp only [Event.userList.injEq] at h2
          subst h2; rfl
      · exact absurd h2 (by simp)

/-- Witness for C10: an authenticated and an anonymous `Url` request get the
same result, and concrete specs issued to the post (Url arm), community and
user builders carry no viewer id. -/
theorem url_and_actor_queries_ignore_requester_witness :
    performR envT { dataUrl with auth := some "tok" } =
      performR envT { dataUrl with auth := none } ∧
    (postSpecUrl "https://blog.example/a" (some 3) .TopAll (some 2)
        (some 5)).my_user_id_ = none ∧
    (communitySpecAll "cats" .New (some 1) (some 10)).my_user_id_ = none ∧
    (userSpecAll "cats" .New (some 1) (some 10)).my_user_id_ = none :=
  ⟨url_and_actor_queries_ignore_requester.1 envT dataUrl (some "tok") none
      (some 7) none rfl rfl rfl,
   url_and_actor_queries_ignore_requester.2.1 envT dataUrl
      (postSpecUrl "https://blog.example/a" (some 3) .TopAll (some 2) (some 5))
      rfl (by decide),
   url_and_actor_queries_ignore_requester.2.2.1 envT dataAll
      (communitySpecAll "cats" .New (some 1) (some 10)) (by decide),
   url_and_actor_queries_ignore_requester.2.2.2 envT dataAll
      (userSpecAll "cats" .New (some 1) (some 10)) (by decide)⟩

end LemmySearch
